import Mathlib

/-!
Verification of the hello-world-strand-agents repository.

Shallow embedding of the Python sources:
  * `src/config/ollama_config.py`   — `OllamaConfig`, `get_model_config`
  * `src/agents/ollama_agent.py`    — `OllamaStrandAgent` with `chat`,
    `async_chat`, `stream_chat`, `list_available_models`, `add_tool`
  * `src/agents/specialized_agents.py` — the five presets and `create_agent`
  * `src/tools/custom_tools.py`     — `unit_converter_tool`,
    `convert_temperature`, `text_analyzer_tool`, `get_most_common_words`

Modelling conventions:
  * The network is an oracle passed explicitly: a function from the request
    the code builds to the outcome the `ollama` library call would produce.
    `Except String r` models "returned `r` or raised an exception whose
    `str` is the carried string"; all exception payloads are their strings.
  * A Python `dict` access chain `response[\x27message\x27][\x27content\x27]` is
    modelled by `Option` fields (a missing key raises `KeyError`, whose
    `str(e)` is the quoted key name).
  * Python float arithmetic is modelled over `Rat`; every numeric claim in
    scope evaluates exactly (no rounding ties, results exactly
    representable), so `Rat` and IEEE double agree at the claimed points.
  * `str.lower` / `str.strip` / `str.split` are modelled over the ASCII
    range, which covers every string the claims mention.
  * Methods that could mutate `self` are embedded state-passing: they
    return their result paired with the post-call agent value.
-/

namespace StrandAgents

/-- A chat message as built in `ollama_agent.py`:
`{"role": ..., "content": ...}`. -/
structure Message where
  role : String
  content : String
deriving Repr, DecidableEq

/-- A tool object handed to an agent. The repository only ever passes
`strands_tools.calculator` or caller-supplied objects, which the chat path
never invokes; tools are opaque values here. -/
inductive Tool where
  | calculator
  | custom (descr : String)
deriving Repr, DecidableEq

/-- Python truthiness of an optional string: `None` and `""` are falsy. -/
def pyTruthy : Option String → Bool
  | none => false
  | some s => s ≠ ""

/-- `x or default` on an optional string, Python truthiness. -/
def pyOrDefault (x : Option String) (default : String) : String :=
  match x with
  | some s => if s ≠ "" then s else default
  | none => default

/-! ## `config/ollama_config.py` -/

/-- `OllamaConfig.__init__` fields (environment variables unset, so the
hard-coded defaults apply). -/
structure OllamaConfig where
  base_url : String
  default_model : String
  timeout : Nat
deriving Repr, DecidableEq

/-- The module-level singleton `ollama_config = OllamaConfig()`. -/
def ollama_config : OllamaConfig :=
  { base_url := "http://localhost:11434", default_model := "llama3.2", timeout := 30 }

/-- The mapping returned by `OllamaConfig.get_model_config`. -/
structure ModelConfig where
  base_url : String
  model : String
  timeout : Nat
  stream : Bool
  temperature : Rat
  max_tokens : Nat
deriving Repr, DecidableEq

/-- `OllamaConfig.get_model_config(model_name)`:
`model = model_name or self.default_model`, then the literal dict. -/
def OllamaConfig.get_model_config (c : OllamaConfig) (model_name : Option String) :
    ModelConfig :=
  let model := pyOrDefault model_name c.default_model
  { base_url := c.base_url, model := model, timeout := c.timeout,
    stream := false, temperature := 7/10, max_tokens := 2048 }

/-! ## `agents/ollama_agent.py` — data -/

/-- The `strands.Agent` object the wrapper holds: the repository only ever
passes it a name and a tool list. -/
structure StrandAgent where
  name : String
  tools : List Tool
deriving Repr, DecidableEq

/-- `OllamaStrandAgent` instance state after `__init__`. -/
structure OllamaStrandAgent where
  name : String
  model : String
  tools : List Tool
  system_prompt : Option String
  config : ModelConfig
  strand_agent : StrandAgent
deriving Repr, DecidableEq

/-- `OllamaStrandAgent.__init__(name, model=None, tools=None,
system_prompt=None)`: `self.model = model or ollama_config.default_model`,
`self.tools = tools or []`, `self.config =
ollama_config.get_model_config(self.model)`, and the `strands.Agent` is
built from the name and tools. -/
def OllamaStrandAgent.init (name : String) (model : Option String)
    (tools : Option (List Tool)) (system_prompt : Option String) :
    OllamaStrandAgent :=
  let model' := pyOrDefault model ollama_config.default_model
  let tools' := match tools with
    | some ts => if ts ≠ [] then ts else []
    | none => []
  { name := name, model := model', tools := tools',
    system_prompt := system_prompt,
    config := ollama_config.get_model_config (some model'),
    strand_agent := { name := name, tools := tools' } }

/-- The body `ollama.chat` / `ollama.AsyncClient().chat` receives: model,
ordered message list, and whether `stream=True` was passed. -/
structure ChatRequest where
  model : String
  messages : List Message
  stream : Bool
deriving Repr, DecidableEq

/-- The `message` sub-dict of an `ollama.chat` response; `none` models a
missing `content` key. -/
structure OllamaMessage where
  content : Option String
deriving Repr, DecidableEq

/-- An `ollama.chat` response (also the shape of one streamed chunk);
`message := none` models a missing `message` key. -/
structure OllamaResponse where
  message : Option OllamaMessage
deriving Repr, DecidableEq

/-- A well-formed response/chunk whose content is `s`. -/
def chunkOf (s : String) : OllamaResponse :=
  { message := some { content := some s } }

/-- `response[\x27message\x27][\x27content\x27]`: each missing key raises
`KeyError(k)` with `str(e) = "\x27k\x27"`, caught by the enclosing
`except`. -/
def getContent (r : OllamaResponse) : Except String String :=
  match r.message with
  | none => .error "\x27message\x27"
  | some m =>
    match m.content with
    | none => .error "\x27content\x27"
    | some c => .ok c

/-- The conversation list built (verbatim, three times) in `chat`,
`async_chat` and `stream_chat`: start from `[]`, append the system message
when `self.system_prompt` is truthy, then append the user message. -/
def buildConversation (system_prompt : Option String) (message : String) :
    List Message :=
  let messages : List Message := []
  let messages := match system_prompt with
    | some sp => if sp ≠ "" then messages ++ [{ role := "system", content := sp }] else messages
    | none => messages
  messages ++ [{ role := "user", content := message }]

/-- The request `chat` sends: `ollama.chat(model=self.model,
messages=messages)` (non-streaming). -/
def OllamaStrandAgent.chat_request (a : OllamaStrandAgent) (message : String) :
    ChatRequest :=
  { model := a.model, messages := buildConversation a.system_prompt message,
    stream := false }

/-- The request `async_chat` sends: identical construction, via the async
client. -/
def OllamaStrandAgent.async_chat_request (a : OllamaStrandAgent)
    (message : String) : ChatRequest :=
  { model := a.model, messages := buildConversation a.system_prompt message,
    stream := false }

/-- The request `stream_chat` sends: same construction with
`stream=True`. -/
def OllamaStrandAgent.stream_request (a : OllamaStrandAgent) (message : String) :
    ChatRequest :=
  { model := a.model, messages := buildConversation a.system_prompt message,
    stream := true }

/-- A non-streaming server oracle: what `ollama.chat` returns (or raises)
for a given request. -/
abbrev ChatServer := ChatRequest → Except String OllamaResponse

/-- A streaming server oracle: the chunks delivered in arrival order,
then `some e` if the connection raised `e` afterwards (a failure before
the first chunk is `([], some e)`), or `none` on clean completion. -/
abbrev StreamServer := ChatRequest → List OllamaResponse × Option String

/-- `OllamaStrandAgent.chat`: build the conversation, call `ollama.chat`,
return `response[\x27message\x27][\x27content\x27]`; any exception is caught and
returned as `f"Error: {str(e)}"`. The method assigns no attribute, so the
post-state is the unchanged agent. -/
def OllamaStrandAgent.chat (a : OllamaStrandAgent) (server : ChatServer)
    (message : String) : String × OllamaStrandAgent :=
  let result :=
    match server (a.chat_request message) with
    | .error e => "Error: " ++ e
    | .ok response =>
      match getContent response with
      | .error e => "Error: " ++ e
      | .ok c => c
  (result, a)

/-- `OllamaStrandAgent.async_chat`: same contract via
`ollama.AsyncClient().chat`; the body is the same construction and the
same `except` wrapper. -/
def OllamaStrandAgent.async_chat (a : OllamaStrandAgent) (server : ChatServer)
    (message : String) : String × OllamaStrandAgent :=
  let result :=
    match server (a.async_chat_request message) with
    | .error e => "Error: " ++ e
    | .ok response =>
      match getContent response with
      | .error e => "Error: " ++ e
      | .ok c => c
  (result, a)

/-- The fragments the `stream_chat` generator yields, given the chunks the
server delivered and the optional exception raised after them: each chunk
yields `chunk[\x27message\x27][\x27content\x27]`; the first exception (a malformed
chunk, or the connection failure once delivered chunks are exhausted) is
caught by the generator body and yields one final `"Error: ..."` fragment,
after which the generator returns. -/
def streamYield : List OllamaResponse → Option String → List String
  | [], none => []
  | [], some e => ["Error: " ++ e]
  | c :: rest, fail =>
    match getContent c with
    | .error e => ["Error: " ++ e]
    | .ok s => s :: streamYield rest fail

/-- `OllamaStrandAgent.stream_chat`: same conversation construction, with
`stream=True`; the yielded fragment sequence is `streamYield` of the
server transcript. No attribute is assigned, so the post-state is the
unchanged agent. -/
def OllamaStrandAgent.stream_chat (a : OllamaStrandAgent) (server : StreamServer)
    (message : String) : List String × OllamaStrandAgent :=
  let out := server (a.stream_request message)
  (streamYield out.1 out.2, a)

/-- One entry of `ollama.list()["models"]`. -/
structure ModelEntry where
  name : String
deriving Repr, DecidableEq

/-- The mapping `ollama.list()` returns. -/
structure ListResponse where
  models : List ModelEntry
deriving Repr, DecidableEq

/-- `OllamaStrandAgent.list_available_models`: `[model["name"] for model in
ollama.list()["models"]]`, with any exception caught and turned into
`[]`. The method reads no instance state, so the oracle outcome is the
whole input. -/
def list_available_models (server : Except String ListResponse) : List String :=
  match server with
  | .ok models => models.models.map (fun model => model.name)
  | .error _ => []

/-- `OllamaStrandAgent.add_tool`: `self.tools.append(tool)` then rebuild
`self.strand_agent = Agent(name=self.name, tools=self.tools)`. -/
def OllamaStrandAgent.add_tool (a : OllamaStrandAgent) (tool : Tool) :
    OllamaStrandAgent :=
  let tools' := a.tools ++ [tool]
  { a with tools := tools',
           strand_agent := { name := a.name, tools := tools' } }

/-! ## Python string primitives

Structural (kernel-reducible) models of the `str` methods the sources
use, over the ASCII range the claims exercise. -/

/-- Python `s.lower()`: ASCII case folding character by character. -/
def pyLower (s : String) : String :=
  String.mk (s.toList.map Char.toLower)

/-- Python `s.strip()` with no argument: drop whitespace from both
ends. -/
def pyTrim (s : String) : String :=
  String.mk
    (((s.toList.dropWhile Char.isWhitespace).reverse.dropWhile
      Char.isWhitespace).reverse)

/-- Helper for `pySplitOnChar`: `acc` holds the current piece reversed. -/
def splitOnCharAux (sep : Char) : List Char → List Char → List String
  | [], acc => [String.mk acc.reverse]
  | c :: cs, acc =>
    if c = sep then String.mk acc.reverse :: splitOnCharAux sep cs []
    else splitOnCharAux sep cs (c :: acc)

/-- Python `s.split(sep)` for a one-character separator: empty pieces are
kept, and the empty string splits to `[""]`. -/
def pySplitOnChar (s : String) (sep : Char) : List String :=
  splitOnCharAux sep s.toList []

/-- Helper for `pySplitParas`: leftmost non-overlapping `"\n\n"` split. -/
def splitParasAux : List Char → List Char → List String
  | [], acc => [String.mk acc.reverse]
  | '\n' :: '\n' :: rest, acc => String.mk acc.reverse :: splitParasAux rest []
  | c :: cs, acc => splitParasAux cs (c :: acc)

/-- Python `s.split("\n\n")`. -/
def pySplitParas (s : String) : List String :=
  splitParasAux s.toList []

/-- Helper for `pySplitWs`. -/
def pySplitWsAux : List Char → List Char → List String
  | [], [] => []
  | [], acc => [String.mk acc.reverse]
  | c :: cs, acc =>
    if c.isWhitespace then
      match acc with
      | [] => pySplitWsAux cs []
      | _ => String.mk acc.reverse :: pySplitWsAux cs []
    else pySplitWsAux cs (c :: acc)

/-- Python `s.split()` with no argument: split on whitespace runs,
discarding empty pieces. -/
def pySplitWs (s : String) : List String :=
  pySplitWsAux s.toList []

/-! ## `tools/custom_tools.py` -/

/-- Floor of a rational (denominator is positive, so flooring division of
numerator by denominator). -/
def ratFloor (q : Rat) : Int :=
  Int.fdiv q.num (q.den : Int)

/-- Round half to even to the nearest integer. -/
def pyRoundInt (y : Rat) : Int :=
  if y - (ratFloor y : Rat) < 1/2 then ratFloor y
  else if 1/2 < y - (ratFloor y : Rat) then ratFloor y + 1
  else if ratFloor y % 2 = 0 then ratFloor y else ratFloor y + 1

/-- Python `round(x, ndigits)`: round half to even at `ndigits` decimal
places. Every value it is applied to in the claims is exact at 6 places,
where `Rat` and IEEE double agree. -/
def pyRound (x : Rat) (ndigits : Nat) : Rat :=
  (pyRoundInt (x * (((10 : Nat) ^ ndigits : Nat) : Rat)) : Rat) /
    (((10 : Nat) ^ ndigits : Nat) : Rat)

/-- `convert_temperature(value, from_unit, to_unit)`: normalise to Celsius
(anything whose lowercase is neither `"fahrenheit"` nor `"kelvin"` is
taken as Celsius), then convert to the target the same way. -/
def convert_temperature (value : Rat) (from_unit to_unit : String) : Rat :=
  let celsius :=
    if pyLower from_unit = "fahrenheit" then (value - 32) * 5 / 9
    else if pyLower from_unit = "kelvin" then value - 273.15
    else value
  if pyLower to_unit = "fahrenheit" then celsius * 9 / 5 + 32
  else if pyLower to_unit = "kelvin" then celsius + 273.15
  else celsius

/-- The `"length"` table of the `conversions` dict. -/
def lengthUnits : List (String × Rat) :=
  [("meter", 1), ("kilometer", 1000), ("centimeter", 1/100),
   ("millimeter", 1/1000), ("inch", 254/10000), ("foot", 3048/10000),
   ("yard", 9144/10000), ("mile", 160934/100)]

/-- The `"weight"` table of the `conversions` dict. -/
def weightUnits : List (String × Rat) :=
  [("kilogram", 1), ("gram", 1/1000), ("pound", 453592/1000000),
   ("ounce", 283495/10000000), ("ton", 1000)]

/-- The `conversions` dict of `unit_converter_tool`: the `"temperature"`
entry is present but empty (handled by the special case). -/
def conversions (unit_type : String) : Option (List (String × Rat)) :=
  if unit_type = "length" then some lengthUnits
  else if unit_type = "weight" then some weightUnits
  else if unit_type = "temperature" then some []
  else none

/-- Whether a unit name is a key of the `conversions` table for the given
unit type (no unit is known for `"temperature"`, whose table is empty, or
for an unknown unit type). -/
def knownUnit (unit_type u : String) : Bool :=
  match conversions unit_type with
  | none => false
  | some unit_map => (unit_map.lookup u).isSome

/-- The mapping `unit_converter_tool` returns: `Option` fields model
presence of the corresponding dict keys. -/
structure ConversionResult where
  original_value : Option Rat
  original_unit : Option String
  converted_value : Option Rat
  converted_unit : Option String
  unit_type : Option String
  error : Option String
deriving Repr, DecidableEq

/-- The success dict of `unit_converter_tool` (with `round(result, 6)`). -/
def mkConvOk (value : Rat) (from_unit to_unit unit_type : String) (result : Rat) :
    ConversionResult :=
  { original_value := some value, original_unit := some from_unit,
    converted_value := some (pyRound result 6), converted_unit := some to_unit,
    unit_type := some unit_type, error := none }

/-- The error dict of `unit_converter_tool` (only an `error` key). -/
def mkConvErr (msg : String) : ConversionResult :=
  { original_value := none, original_unit := none, converted_value := none,
    converted_unit := none, unit_type := none, error := some msg }

/-- `unit_converter_tool(value, from_unit, to_unit, unit_type)`:
temperature is special-cased through `convert_temperature`; otherwise the
unit type and both unit names must be table keys, and the value is taken
through the base unit. -/
def unit_converter_tool (value : Rat) (from_unit to_unit unit_type : String) :
    ConversionResult :=
  if unit_type = "temperature" then
    mkConvOk value from_unit to_unit unit_type
      (convert_temperature value from_unit to_unit)
  else
    match conversions unit_type with
    | none => mkConvErr ("Unknown unit type: " ++ unit_type)
    | some unit_map =>
      match unit_map.lookup from_unit, unit_map.lookup to_unit with
      | some fu, some tu =>
        mkConvOk value from_unit to_unit unit_type ((value * fu) / tu)
      | some _, none => mkConvErr ("Unknown unit for " ++ unit_type)
      | none, _ => mkConvErr ("Unknown unit for " ++ unit_type)

/-- Python `s.strip(chars)`: drop characters of the set from both ends. -/
def pyStrip (s : String) (cs : List Char) : String :=
  String.mk
    (((s.toList.dropWhile (fun c => cs.contains c)).reverse.dropWhile
      (fun c => cs.contains c)).reverse)

/-- The character set of `word.strip(".,!?;:\"()[]\x7b\x7d")` in
`get_most_common_words`. -/
def punctSet : List Char :=
  ['.', ',', '!', '?', ';', ':', '"', '(', ')', '[', ']', '\x7b', '\x7d']

/-- Increment `w` in an insertion-ordered association list (Python
`dict.get(w, 0) + 1` assignment preserves first-insertion order). -/
def bump : List (String × Nat) → String → List (String × Nat)
  | [], w => [(w, 1)]
  | (k, c) :: rest, w =>
    if k = w then (k, c + 1) :: rest else (k, c) :: bump rest w

/-- Stable insertion for a descending sort by count: an element moves past
an earlier one only when its count is strictly greater, matching the
stability of Python `sorted(..., key=lambda x: x[1], reverse=True)`. -/
def insertDesc (x : String × Nat) : List (String × Nat) → List (String × Nat)
  | [] => [x]
  | y :: ys => if x.2 ≥ y.2 then x :: y :: ys else y :: insertDesc x ys

/-- Stable descending-by-count sort. -/
def sortDesc : List (String × Nat) → List (String × Nat)
  | [] => []
  | x :: xs => insertDesc x (sortDesc xs)

/-- `get_most_common_words(words, top_n)`: lower-case and strip
punctuation, keep words longer than 2 characters, count them in
first-occurrence order, sort by count descending (stable), take
`top_n`. Entries model the `{"word": w, "count": c}` dicts. -/
def get_most_common_words (words : List String) (top_n : Nat) :
    List (String × Nat) :=
  let word_count := words.foldl
    (fun acc word =>
      let clean_word := pyStrip (pyLower word) punctSet
      if clean_word ≠ "" ∧ clean_word.length > 2 then bump acc clean_word
      else acc)
    []
  (sortDesc word_count).take top_n

/-- The mapping `text_analyzer_tool` returns. Its `try` body cannot raise
(the division is guarded by `max(..., 1)`), so the result is total. -/
structure TextAnalysis where
  character_count : Nat
  word_count : Nat
  sentence_count : Nat
  paragraph_count : Nat
  average_words_per_sentence : Rat
  most_common_words : List (String × Nat)
deriving Repr, DecidableEq

/-- `text_analyzer_tool(text)`: whitespace words, `"."`-split sentences and
`"\n\n"`-split paragraphs counted when non-blank after strip, rounded
average, and the five most common words. -/
def text_analyzer_tool (text : String) : TextAnalysis :=
  let words := pySplitWs text
  let sentences := pySplitOnChar text '.'
  let paragraphs := pySplitParas text
  let sentence_count := (sentences.filter (fun s => pyTrim s ≠ "")).length
  { character_count := text.length,
    word_count := words.length,
    sentence_count := sentence_count,
    paragraph_count := (paragraphs.filter (fun p => pyTrim p ≠ "")).length,
    average_words_per_sentence :=
      pyRound ((words.length : Rat) / (max sentence_count 1 : Nat)) 2,
    most_common_words := get_most_common_words words 5 }

/-! ## `agents/specialized_agents.py` -/

/-- The `MathAgent` system prompt (exact triple-quoted string). -/
def mathSystemPrompt : String :=
  "\n        You are a mathematical expert assistant. You excel at:\n        - Solving complex mathematical problems\n        - Explaining mathematical concepts clearly\n        - Performing calculations accurately\n        - Working with statistics, algebra, calculus, and more\n        \n        Always show your work step-by-step and use the calculator tool when needed.\n        "

/-- The `ResearchAgent` system prompt. -/
def researchSystemPrompt : String :=
  "\n        You are a research specialist assistant. You excel at:\n        - Finding and analyzing information from various sources\n        - Summarizing complex topics\n        - Fact-checking and verification\n        - Providing comprehensive research reports\n        \n        Always cite your sources and provide accurate, up-to-date information.\n        "

/-- The `CodeAgent` system prompt. -/
def codeSystemPrompt : String :=
  "\n        You are a programming expert assistant. You excel at:\n        - Writing clean, efficient code in multiple languages\n        - Debugging and troubleshooting code issues\n        - Explaining programming concepts\n        - Code review and optimization\n        - Best practices and design patterns\n        \n        Always provide working code examples with clear explanations.\n        "

/-- The `AnalysisAgent` system prompt. -/
def analysisSystemPrompt : String :=
  "\n        You are a data analysis expert assistant. You excel at:\n        - Analyzing datasets and finding patterns\n        - Creating data visualizations\n        - Statistical analysis and interpretation\n        - Business intelligence and reporting\n        - Machine learning concepts\n        \n        Always provide clear insights with supporting evidence.\n        "

/-- The `CreativeAgent` system prompt. -/
def creativeSystemPrompt : String :=
  "\n        You are a creative writing expert assistant. You excel at:\n        - Creative writing and storytelling\n        - Content creation for various formats\n        - Brainstorming and ideation\n        - Editing and improving existing content\n        - Adapting tone and style for different audiences\n        \n        Always be creative, engaging, and original in your responses.\n        "

/-- `MathAgent(model)`: `super().__init__(name="MathAgent", model=model,
tools=[calculator], system_prompt=...)`; the class default for `model` is
`"llama3.2"`. -/
def MathAgent (model : String) : OllamaStrandAgent :=
  OllamaStrandAgent.init "MathAgent" (some model) (some [Tool.calculator])
    (some mathSystemPrompt)

/-- `ResearchAgent(model)` (default `"llama3.2"`, no tools). -/
def ResearchAgent (model : String) : OllamaStrandAgent :=
  OllamaStrandAgent.init "ResearchAgent" (some model) (some [])
    (some researchSystemPrompt)

/-- `CodeAgent(model)` (default `"codellama"`, no tools). -/
def CodeAgent (model : String) : OllamaStrandAgent :=
  OllamaStrandAgent.init "CodeAgent" (some model) (some [])
    (some codeSystemPrompt)

/-- `AnalysisAgent(model)` (default `"llama3.2"`, calculator tool). -/
def AnalysisAgent (model : String) : OllamaStrandAgent :=
  OllamaStrandAgent.init "AnalysisAgent" (some model) (some [Tool.calculator])
    (some analysisSystemPrompt)

/-- `CreativeAgent(model)` (default `"llama3.2"`, no tools). -/
def CreativeAgent (model : String) : OllamaStrandAgent :=
  OllamaStrandAgent.init "CreativeAgent" (some model) (some [])
    (some creativeSystemPrompt)

/-- The keys of the `agents` dict in `create_agent`, in insertion order. -/
def presetNames : List String :=
  ["math", "research", "code", "analysis", "creative"]

/-- The class `agents[key]` selects, as a constructor from the model
name. -/
def agentClass (key : String) : String → OllamaStrandAgent :=
  if key = "math" then MathAgent
  else if key = "research" then ResearchAgent
  else if key = "code" then CodeAgent
  else if key = "analysis" then AnalysisAgent
  else CreativeAgent

/-- The model each preset class uses when constructed without an
argument. -/
def agentDefaultModel (key : String) : String :=
  if key = "code" then "codellama" else "llama3.2"

/-- `create_agent(agent_type, model=None)`: raise `ValueError` when
`agent_type.lower()` is not a key of the preset dict; otherwise
`agent_class(model=model)` when `model` is truthy, else `agent_class()`
with the class default. `Except.error` carries `str(e)` of the raised
`ValueError`. -/
def create_agent (agent_type : String) (model : Option String) :
    Except String OllamaStrandAgent :=
  let key := pyLower agent_type
  if key ∈ presetNames then
    match model with
    | some mstr =>
      if mstr ≠ "" then .ok (agentClass key mstr)
      else .ok (agentClass key (agentDefaultModel key))
    | none => .ok (agentClass key (agentDefaultModel key))
  else
    .error ("Unknown agent type: " ++ agent_type ++
      ". Available types: [\x27math\x27, \x27research\x27, \x27code\x27, \x27analysis\x27, \x27creative\x27]")

/-! ## Helper lemmas -/

theorem ratFloor_intCast (k : Int) : ratFloor (k : Rat) = k := by
  simp [ratFloor, Int.fdiv_one]

theorem pyRoundInt_intCast (k : Int) : pyRoundInt ((k : Rat)) = k := by
  have h : (0 : Rat) < 1/2 := by norm_num
  simp [pyRoundInt, ratFloor_intCast, h]

theorem pyRound_intCast (n : Int) (d : Nat) : pyRound ((n : Rat)) d = (n : Rat) := by
  have hcast : (n : Rat) * (((10 : Nat) ^ d : Nat) : Rat) =
      (((n * ((10 : Nat) ^ d : Nat) : Int)) : Rat) := by push_cast; ring
  have hpow : (((10 : Nat) ^ d : Nat) : Rat) ≠ 0 := by positivity
  unfold pyRound
  rw [hcast, pyRoundInt_intCast, ← hcast]
  field_simp

theorem buildConversation_of_truthy (sp : String) (m : String) (h : sp ≠ "") :
    buildConversation (some sp) m =
      [{ role := "system", content := sp }, { role := "user", content := m }] := by
  simp [buildConversation, h]

theorem buildConversation_of_falsy (spo : Option String) (m : String)
    (h : spo = none ∨ spo = some "") :
    buildConversation spo m = [{ role := "user", content := m }] := by
  rcases h with h | h <;> subst h <;> simp [buildConversation]

theorem streamYield_clean (frags : List String) :
    streamYield (frags.map chunkOf) none = frags := by
  induction frags with
  | nil => rfl
  | cons f rest ih => simp [streamYield, chunkOf, getContent, ih]

theorem streamYield_failure (frags : List String) (e : String) :
    streamYield (frags.map chunkOf) (some e) = frags ++ ["Error: " ++ e] := by
  induction frags with
  | nil => rfl
  | cons f rest ih => simp [streamYield, chunkOf, getContent, ih]

/-! ## Claims -/

/-- Claim C1, counterexample: an agent whose system prompt is the empty
string has a non-null system prompt, yet `chat` sends only the user
message — the Python guard `if self.system_prompt:` tests truthiness, not
nullness. -/
theorem C1_counterexample :
    (OllamaStrandAgent.init "A" none none (some "")).system_prompt ≠ none ∧
    ((OllamaStrandAgent.init "A" none none (some "")).chat_request "hi").messages =
      [{ role := "user", content := "hi" }] ∧
    ((OllamaStrandAgent.init "A" none none (some "")).chat_request "hi").messages ≠
      [{ role := "system", content := "" }, { role := "user", content := "hi" }] :=
  ⟨by decide, by decide, by decide⟩

/-- Claim C1 (amended): for every call to `chat`, `async_chat` or
`stream_chat` with user message `m`, the message sequence sent to the
server is exactly `[system message, user message]` when the agent's
system prompt is non-null and non-empty, and exactly `[user message]`
when it is null or empty; the system message (if present) comes first,
the user message comes last, and there is never more than one of each per
call. -/
theorem C1_conversation_shape (a : OllamaStrandAgent) (m : String) :
    (∀ sp : String, a.system_prompt = some sp → sp ≠ "" →
      ((a.chat_request m).messages =
          [{ role := "system", content := sp }, { role := "user", content := m }] ∧
       (a.async_chat_request m).messages =
          [{ role := "system", content := sp }, { role := "user", content := m }] ∧
       (a.stream_request m).messages =
          [{ role := "system", content := sp }, { role := "user", content := m }])) ∧
    ((a.system_prompt = none ∨ a.system_prompt = some "") →
      ((a.chat_request m).messages = [{ role := "user", content := m }] ∧
       (a.async_chat_request m).messages = [{ role := "user", content := m }] ∧
       (a.stream_request m).messages = [{ role := "user", content := m }])) := by
  constructor
  · intro sp hsp hne
    have h : buildConversation a.system_prompt m =
        [{ role := "system", content := sp }, { role := "user", content := m }] := by
      rw [hsp]; exact buildConversation_of_truthy sp m hne
    exact ⟨by simp [OllamaStrandAgent.chat_request, h],
           by simp [OllamaStrandAgent.async_chat_request, h],
           by simp [OllamaStrandAgent.stream_request, h]⟩
  · intro hf
    have h : buildConversation a.system_prompt m = [{ role := "user", content := m }] :=
      buildConversation_of_falsy a.system_prompt m hf
    exact ⟨by simp [OllamaStrandAgent.chat_request, h],
           by simp [OllamaStrandAgent.async_chat_request, h],
           by simp [OllamaStrandAgent.stream_request, h]⟩

/-- Witness for C1: a concrete agent with a non-empty system prompt sends
both messages; one with no system prompt sends only the user message. -/
theorem C1_conversation_shape_witness :
    ((OllamaStrandAgent.init "A" none none (some "be helpful")).chat_request "hi").messages =
      [{ role := "system", content := "be helpful" }, { role := "user", content := "hi" }] ∧
    ((OllamaStrandAgent.init "B" none none none).chat_request "hi").messages =
      [{ role := "user", content := "hi" }] :=
  ⟨((C1_conversation_shape (OllamaStrandAgent.init "A" none none (some "be helpful")) "hi").1
      "be helpful" rfl (by decide)).1,
   ((C1_conversation_shape (OllamaStrandAgent.init "B" none none none) "hi").2 (Or.inl rfl)).1⟩

/-- Claim C3: `chat` and `async_chat` are total (no exception escapes the
embedded `except` wrapper); when the underlying request raises `e` the
result is `"Error: " ++ e` (an identifiable error prefix), when the
response is missing its content the caught `KeyError` is reported the
same way, and on success the result is the response's content field. -/
theorem C3_error_handling (a : OllamaStrandAgent) (m : String) (cs as : ChatServer) :
    (∀ e, cs (a.chat_request m) = .error e →
      (a.chat cs m).1 = "Error: " ++ e ∧ ∃ rest, (a.chat cs m).1 = "Error: " ++ rest) ∧
    (∀ r e, cs (a.chat_request m) = .ok r → getContent r = .error e →
      (a.chat cs m).1 = "Error: " ++ e) ∧
    (∀ r c, cs (a.chat_request m) = .ok r → getContent r = .ok c →
      (a.chat cs m).1 = c) ∧
    (∀ e, as (a.async_chat_request m) = .error e →
      (a.async_chat as m).1 = "Error: " ++ e ∧
        ∃ rest, (a.async_chat as m).1 = "Error: " ++ rest) ∧
    (∀ r e, as (a.async_chat_request m) = .ok r → getContent r = .error e →
      (a.async_chat as m).1 = "Error: " ++ e) ∧
    (∀ r c, as (a.async_chat_request m) = .ok r → getContent r = .ok c →
      (a.async_chat as m).1 = c) := by
  refine ⟨?_, ?_, ?_, ?_, ?_, ?_⟩
  · intro e h
    refine ⟨?_, e, ?_⟩ <;> simp [OllamaStrandAgent.chat, h]
  · intro r e h hr
    simp [OllamaStrandAgent.chat, h, hr]
  · intro r c h hr
    simp [OllamaStrandAgent.chat, h, hr]
  · intro e h
    refine ⟨?_, e, ?_⟩ <;> simp [OllamaStrandAgent.async_chat, h]
  · intro r e h hr
    simp [OllamaStrandAgent.async_chat, h, hr]
  · intro r c h hr
    simp [OllamaStrandAgent.async_chat, h, hr]

/-- Witness for C3: a transport failure is returned as prefixed error
text; a successful response returns its content. -/
theorem C3_error_handling_witness :
    ((OllamaStrandAgent.init "A" none none none).chat
        (fun _ => .error "connection refused") "hi").1 = "Error: connection refused" ∧
    ((OllamaStrandAgent.init "A" none none none).async_chat
        (fun _ => .ok (chunkOf "4")) "hi").1 = "4" :=
  ⟨((C3_error_handling (OllamaStrandAgent.init "A" none none none) "hi"
      (fun _ => .error "connection refused") (fun _ => .ok (chunkOf "4"))).1
      "connection refused" rfl).1,
   (C3_error_handling (OllamaStrandAgent.init "A" none none none) "hi"
      (fun _ => .error "connection refused") (fun _ => .ok (chunkOf "4"))).2.2.2.2.2
      (chunkOf "4") "4" rfl rfl⟩

/-- Claim C4: `list_available_models` returns the reported model names,
exactly as many as the server reports and in server order; a failed query
gives `[]`, and the embedded function is total (never raises). -/
theorem C4_list_models (entries : List ModelEntry) (e : String) :
    list_available_models (.ok { models := entries }) =
      entries.map (fun model => model.name) ∧
    (list_available_models (.ok { models := entries })).length = entries.length ∧
    list_available_models (.error e) = [] := by
  refine ⟨rfl, ?_, rfl⟩
  simp [list_available_models]

/-- Claim C5: when the server streams the fragments `frags` and completes
cleanly, `stream_chat` yields exactly `frags` in order; and when the
non-streaming server's response is the concatenation of those fragments,
the concatenation of the yielded fragments equals the `chat` result for
the same input. -/
theorem C5_stream_refines_chat (a : OllamaStrandAgent) (m : String)
    (frags : List String) (ss : StreamServer) (cs : ChatServer)
    (hs : ss (a.stream_request m) = (frags.map chunkOf, none))
    (hc : cs (a.chat_request m) = .ok (chunkOf (String.join frags))) :
    (a.stream_chat ss m).1 = frags ∧
    String.join ((a.stream_chat ss m).1) = (a.chat cs m).1 := by
  have h1 : (a.stream_chat ss m).1 = frags := by
    simp [OllamaStrandAgent.stream_chat, hs, streamYield_clean]
  have h2 : (a.chat cs m).1 = String.join frags := by
    simp [OllamaStrandAgent.chat, hc, chunkOf, getContent]
  exact ⟨h1, by rw [h1, h2]⟩

/-- Witness for C5: the fragment triple from the spec. -/
theorem C5_stream_refines_chat_witness :
    ((OllamaStrandAgent.init "A" none none none).stream_chat
        (fun _ => (["The", " answer", " is 4"].map chunkOf, none)) "q").1 =
      ["The", " answer", " is 4"] ∧
    String.join (((OllamaStrandAgent.init "A" none none none).stream_chat
        (fun _ => (["The", " answer", " is 4"].map chunkOf, none)) "q").1) =
      ((OllamaStrandAgent.init "A" none none none).chat
        (fun _ => .ok (chunkOf (String.join ["The", " answer", " is 4"]))) "q").1 :=
  C5_stream_refines_chat (OllamaStrandAgent.init "A" none none none) "q"
    ["The", " answer", " is 4"]
    (fun _ => (["The", " answer", " is 4"].map chunkOf, none))
    (fun _ => .ok (chunkOf (String.join ["The", " answer", " is 4"]))) rfl rfl

/-- Claim C6: when the connection fails with `e` after delivering
`frags`, the yielded sequence is exactly the delivered fragments followed
by one terminal error fragment, and the generator ends there (the
embedded yield list is total — nothing is raised to the consumer — and
nothing follows the error fragment). -/
theorem C6_stream_failure (a : OllamaStrandAgent) (m : String)
    (frags : List String) (e : String) (ss : StreamServer)
    (h : ss (a.stream_request m) = (frags.map chunkOf, some e)) :
    (a.stream_chat ss m).1 = frags ++ ["Error: " ++ e] := by
  simp [OllamaStrandAgent.stream_chat, h, streamYield_failure]

/-- Witness for C6: one fragment delivered, then a mid-stream failure. -/
theorem C6_stream_failure_witness :
    ((OllamaStrandAgent.init "A" none none none).stream_chat
        (fun _ => (["The"].map chunkOf, some "connection reset")) "q").1 =
      ["The"] ++ ["Error: connection reset"] :=
  C6_stream_failure (OllamaStrandAgent.init "A" none none none) "q" ["The"]
    "connection reset" (fun _ => (["The"].map chunkOf, some "connection reset")) rfl

/-- Claim C8: on `"Hello world. Hello again."` the text analyzer reports
4 words, 2 sentences, and `("hello", 2)` as the top common word. -/
theorem C8_text_analysis :
    (text_analyzer_tool "Hello world. Hello again.").word_count = 4 ∧
    (text_analyzer_tool "Hello world. Hello again.").sentence_count = 2 ∧
    (text_analyzer_tool "Hello world. Hello again.").most_common_words.head? =
      some ("hello", 2) :=
  ⟨by decide, by decide, by decide⟩

/-- Claim C10: `chat`, `async_chat` and `stream_chat` leave the agent
state unchanged (success or failure — the oracle is universally
quantified); `add_tool` appends the tool to `tools`, rebuilds
`strand_agent` from the current name and tools, and changes no other
field. -/
theorem C10_frame (a : OllamaStrandAgent) (cs as : ChatServer)
    (ss : StreamServer) (m : String) (tool : Tool) :
    (a.chat cs m).2 = a ∧ (a.async_chat as m).2 = a ∧
    (a.stream_chat ss m).2 = a ∧
    (a.add_tool tool).name = a.name ∧ (a.add_tool tool).model = a.model ∧
    (a.add_tool tool).system_prompt = a.system_prompt ∧
    (a.add_tool tool).config = a.config ∧
    (a.add_tool tool).tools = a.tools ++ [tool] ∧
    (a.add_tool tool).strand_agent =
      { name := a.name, tools := a.tools ++ [tool] } :=
  ⟨rfl, rfl, rfl, rfl, rfl, rfl, rfl, rfl, rfl⟩

theorem pyRound_one : pyRound 1 6 = 1 := by
  have h := pyRound_intCast 1 6
  push_cast at h
  exact h

theorem create_agent_of_mem (t : String) (m : Option String) (key : String)
    (h : pyLower t = key) (hmem : key ∈ presetNames) :
    create_agent t m = .ok (agentClass key (pyOrDefault m (agentDefaultModel key))) := by
  rcases m with _ | mstr
  · simp [create_agent, h, hmem, pyOrDefault]
  · by_cases he : mstr = ""
    · subst he
      simp [create_agent, h, hmem, pyOrDefault]
    · simp [create_agent, h, hmem, pyOrDefault, he]

/-- Claim C2, counterexample: `"bogus"` is not a known temperature unit,
yet the temperature branch accepts it (treating it as Celsius) and
returns a `converted_value` with no `error` field — the "unknown unit
name yields an error" behaviour does not hold for `"temperature"`. -/
theorem C2_counterexample :
    (unit_converter_tool 1 "bogus" "bogus" "temperature").error = none ∧
    (unit_converter_tool 1 "bogus" "bogus" "temperature").converted_value = some 1 := by
  have hb : pyLower "bogus" = "bogus" := by decide
  have hbf : ("bogus" : String) ≠ "fahrenheit" := by decide
  have hbk : ("bogus" : String) ≠ "kelvin" := by decide
  have hct : convert_temperature 1 "bogus" "bogus" = 1 := by
    norm_num [convert_temperature, hb, hbf, hbk]
  constructor <;> simp [unit_converter_tool, mkConvOk, hct, pyRound_one]

/-- Claim C2 (amended): converting 0 Celsius to Fahrenheit yields 32;
converting 100 centimeters to meters yields 1; and for every call whose
unit type is not `"temperature"` in which a unit name is unknown for the
given unit type, the result carries an `error` field and no
`converted_value` (for `"temperature"`, unknown unit names are accepted
and treated as Celsius). -/
theorem C2_unit_conversion :
    (unit_converter_tool 0 "celsius" "fahrenheit" "temperature").converted_value =
      some 32 ∧
    (unit_converter_tool 100 "centimeter" "meter" "length").converted_value =
      some 1 ∧
    ∀ (v : Rat) (f t u : String), u ≠ "temperature" →
      (knownUnit u f = false ∨ knownUnit u t = false) →
      (unit_converter_tool v f t u).error.isSome = true ∧
      (unit_converter_tool v f t u).converted_value = none := by
  refine ⟨?_, ?_, ?_⟩
  · have h1 : pyLower "celsius" = "celsius" := by decide
    have h2 : pyLower "fahrenheit" = "fahrenheit" := by decide
    have hcf : ("celsius" : String) ≠ "fahrenheit" := by decide
    have hck : ("celsius" : String) ≠ "kelvin" := by decide
    have hct : convert_temperature 0 "celsius" "fahrenheit" = 32 := by
      norm_num [convert_temperature, h1, h2, hcf, hck]
    have h32 : pyRound 32 6 = 32 := by
      have h := pyRound_intCast 32 6
      push_cast at h
      exact h
    simp [unit_converter_tool, mkConvOk, hct, h32]
  · have harg : ((100 : Rat) * (1/100)) / 1 = 1 := by norm_num
    simp [unit_converter_tool, conversions, lengthUnits, List.lookup, mkConvOk,
          harg, pyRound_one]
  · intro v f t u hu hk
    unfold unit_converter_tool
    rw [if_neg hu]
    cases hconv : conversions u with
    | none => simp [mkConvErr]
    | some unit_map =>
      rcases hlf : unit_map.lookup f with _ | fu
      · simp [hlf, mkConvErr]
      · rcases hlt : unit_map.lookup t with _ | tu
        · simp [hlf, hlt, mkConvErr]
        · exfalso
          rcases hk with h | h <;> simp [knownUnit, hconv, hlf, hlt] at h

/-- Witness for C2: a length conversion with an unknown source unit is
rejected with an `error` field and no `converted_value`. -/
theorem C2_unit_conversion_witness :
    (unit_converter_tool 0 "parsec" "meter" "length").error.isSome = true ∧
    (unit_converter_tool 0 "parsec" "meter" "length").converted_value = none :=
  C2_unit_conversion.2.2 0 "parsec" "meter" "length" (by decide)
    (Or.inl (by decide))

/-- Claim C7: `create_agent` fails (raises `ValueError`) exactly when the
lower-cased agent type is not one of the five preset names, and for each
of the five names it returns the corresponding initialized preset (with
the caller's model when truthy, else the class default). -/
theorem C7_create_agent (t : String) (m : Option String) :
    ((∃ msg, create_agent t m = .error msg) ↔ pyLower t ∉ presetNames) ∧
    (pyLower t = "math" →
      create_agent t m = .ok (MathAgent (pyOrDefault m "llama3.2"))) ∧
    (pyLower t = "research" →
      create_agent t m = .ok (ResearchAgent (pyOrDefault m "llama3.2"))) ∧
    (pyLower t = "code" →
      create_agent t m = .ok (CodeAgent (pyOrDefault m "codellama"))) ∧
    (pyLower t = "analysis" →
      create_agent t m = .ok (AnalysisAgent (pyOrDefault m "llama3.2"))) ∧
    (pyLower t = "creative" →
      create_agent t m = .ok (CreativeAgent (pyOrDefault m "llama3.2"))) := by
  refine ⟨?_, ?_, ?_, ?_, ?_, ?_⟩
  · by_cases hmem : pyLower t ∈ presetNames
    · rw [create_agent_of_mem t m (pyLower t) rfl hmem]
      simp [hmem]
    · simp [create_agent, hmem]
  · intro h
    rw [create_agent_of_mem t m "math" h (by decide)]
    rfl
  · intro h
    rw [create_agent_of_mem t m "research" h (by decide)]
    rfl
  · intro h
    rw [create_agent_of_mem t m "code" h (by decide)]
    rfl
  · intro h
    rw [create_agent_of_mem t m "analysis" h (by decide)]
    rfl
  · intro h
    rw [create_agent_of_mem t m "creative" h (by decide)]
    rfl

/-- Witness for C7: `"MATH"` (case-insensitive) yields the math preset
with its default model; an unknown name yields the error. -/
theorem C7_create_agent_witness :
    create_agent "MATH" none = .ok (MathAgent "llama3.2") ∧
    (∃ msg, create_agent "wizard" none = .error msg) :=
  ⟨(C7_create_agent "MATH" none).2.1 (by decide),
   (C7_create_agent "wizard" none).1.mpr (by decide)⟩

/-- Claim C9: for `"temperature"`, a `from_unit` (or `to_unit`) whose
lowercase form is neither `"fahrenheit"` nor `"kelvin"` is treated as
Celsius, and every temperature call returns a `converted_value` with no
`error` field instead of rejecting the name. -/
theorem C9_temperature_fallback (v : Rat) (f t : String) :
    ((pyLower f ≠ "fahrenheit" ∧ pyLower f ≠ "kelvin") →
      convert_temperature v f t = convert_temperature v "celsius" t) ∧
    ((pyLower t ≠ "fahrenheit" ∧ pyLower t ≠ "kelvin") →
      convert_temperature v f t = convert_temperature v f "celsius") ∧
    (unit_converter_tool v f t "temperature").converted_value =
      some (pyRound (convert_temperature v f t) 6) ∧
    (unit_converter_tool v f t "temperature").error = none := by
  have hc : pyLower "celsius" = "celsius" := by decide
  refine ⟨?_, ?_, ?_, ?_⟩
  · rintro ⟨h1, h2⟩
    simp [convert_temperature, h1, h2, hc]
  · rintro ⟨h1, h2⟩
    simp [convert_temperature, h1, h2, hc]
  · simp [unit_converter_tool, mkConvOk]
  · simp [unit_converter_tool, mkConvOk]

/-- Witness for C9: `"C"` and `"K"` (lowercase `"c"`, `"k"`) are not the
recognised spellings, so both are treated as Celsius and the call
succeeds. -/
theorem C9_temperature_fallback_witness :
    convert_temperature 10 "C" "K" = convert_temperature 10 "celsius" "K" ∧
    convert_temperature 10 "C" "K" = convert_temperature 10 "C" "celsius" ∧
    (unit_converter_tool 10 "C" "K" "temperature").error = none :=
  ⟨(C9_temperature_fallback 10 "C" "K").1 ⟨by decide, by decide⟩,
   (C9_temperature_fallback 10 "C" "K").2.1 ⟨by decide, by decide⟩,
   (C9_temperature_fallback 10 "C" "K").2.2.2⟩

end StrandAgents
